import Mathlib

/-!
Verification development for the duklog amateur-radio logging application.

The Rust sources are shallowly embedded as executable Lean definitions.
The repository snapshot mixes several eras of the code base:

* `src/model/log/mod.rs` and `src/model/log/header.rs` define the current
  four-variant `Log` (General, Pota, FieldDay, WinterFieldDay); they are
  embedded in the `Model` namespace.
* `src/storage/manager.rs` is written against the earlier two-variant
  `Log` of `src/model/log.rs` (its `LogMetadata::from_log` matches only
  `Pota` and `General`); that layer is embedded in the `Storage`
  namespace with its own two-variant `Log`.
* `src/adif/writer.rs` and `src/tui/app.rs` predate the enum and use a
  single-struct `Log`; the ADIF header formatter is embedded in the
  `Adif` namespace over that struct, and the application shell in the
  `Tui` namespace (composed with the four-variant model `Log`, which is
  what its duplicate-rule call resolves to in the current model).

Calls to `Utc::now()` in the sources are embedded by threading the
current UTC date (`today`) as an explicit parameter.  Rust `String`
values are Lean `String`; `to_lowercase` is embedded as `String.toLower`
(the values it is applied to are validated ASCII).  `HashSet::len`
applied to a collected iterator is embedded as `List.dedup.length`
(the number of distinct elements).
-/

/-- UTC calendar date (chrono `NaiveDate`), identified by year/month/day. -/
structure NaiveDate where
  year : Nat
  month : Nat
  day : Nat
deriving DecidableEq, Repr

/-- Time of day component of a UTC timestamp. -/
structure TimeOfDay where
  hour : Nat
  minute : Nat
  second : Nat
deriving DecidableEq, Repr

/-- UTC timestamp (chrono `DateTime<Utc>`), split into calendar date and
time of day; `date` embeds chrono `date_naive()`. -/
structure DateTime where
  date : NaiveDate
  time : TimeOfDay
deriving DecidableEq, Repr

/-- Lexicographic order on timestamps, used for the newest-first sort in
`Storage.list_logs`. -/
def DateTime.keyNat (t : DateTime) : Nat :=
  ((((t.date.year * 13 + t.date.month) * 32 + t.date.day) * 24 + t.time.hour) * 60
      + t.time.minute) * 60 + t.time.second

/-- Amateur radio frequency band (`src/model/band.rs`). -/
inductive Band where
  | m160 | m80 | m60 | m40 | m30 | m20 | m17 | m15 | m12 | m10 | m6 | m2 | cm70
deriving DecidableEq, Repr

/-- ADIF string representation of a band (`Band::adif_str`); also its
`Display` implementation. -/
def Band.adif_str : Band → String
  | .m160 => "160M"
  | .m80 => "80M"
  | .m60 => "60M"
  | .m40 => "40M"
  | .m30 => "30M"
  | .m20 => "20M"
  | .m17 => "17M"
  | .m15 => "15M"
  | .m12 => "12M"
  | .m10 => "10M"
  | .m6 => "6M"
  | .m2 => "2M"
  | .cm70 => "70CM"

/-- Amateur radio operating mode (`src/model/mode.rs`). -/
inductive Mode where
  | ssb | cw | ft8 | ft4 | js8 | psk31 | rtty | fm | am | digi
deriving DecidableEq, Repr

/-- ADIF string representation of a mode (`Mode::adif_str`); also its
`Display` implementation. -/
def Mode.adif_str : Mode → String
  | .ssb => "SSB"
  | .cw => "CW"
  | .ft8 => "FT8"
  | .ft4 => "FT4"
  | .js8 => "JS8"
  | .psk31 => "PSK31"
  | .rtty => "RTTY"
  | .fm => "FM"
  | .am => "AM"
  | .digi => "DIGI"

/-- Default RST signal report per mode (`Mode::default_rst`). -/
def Mode.default_rst : Mode → String
  | .ssb | .fm | .am => "59"
  | .cw | .psk31 | .rtty => "599"
  | .ft8 | .ft4 | .js8 | .digi => "-10"

/-- Validation errors (`src/model/validation.rs`). -/
inductive ValidationError where
  | emptyCallsign
  | invalidCallsign (text : String)
  | invalidParkRef (text : String)
  | invalidGridSquare (text : String)
deriving DecidableEq, Repr

/-- A callsign character: ASCII alphanumeric or the slash
(`c.is_ascii_alphanumeric() || c == '/'`). -/
def isCallsignChar (c : Char) : Bool :=
  c.isAlphanum || c = '/'

/-- Embeds `validate_callsign`: non-empty, every character ASCII alphanumeric or
slash (`src/model/validation.rs`). -/
def validate_callsign (callsign : String) : Except ValidationError Unit :=
  if callsign = "" then .error .emptyCallsign
  else if callsign.data.all isCallsignChar then .ok ()
  else .error (.invalidCallsign callsign)

/-- The park-reference regex `[A-Z]` character class. -/
def isUpperLetter (c : Char) : Bool :=
  'A' ≤ c && c ≤ 'Z'

/-- The regex `^[A-Z]\x7b1,3\x7d-\d\x7b4,5\x7d$` from
`src/model/validation.rs`, embedded by splitting at the first
non-uppercase-letter character (the three character classes of the
pattern are pairwise disjoint, so the greedy match is this split). -/
def parkRefMatches (s : List Char) : Bool :=
  let letters := s.takeWhile isUpperLetter
  let rest := s.dropWhile isUpperLetter
  decide (1 ≤ letters.length) && decide (letters.length ≤ 3) &&
    match rest with
    | '-' :: digits =>
        digits.all Char.isDigit && decide (4 ≤ digits.length) && decide (digits.length ≤ 5)
    | _ => false

/-- Embeds `validate_park_ref` (`src/model/validation.rs`). -/
def validate_park_ref (park_ref : String) : Except ValidationError Unit :=
  if parkRefMatches park_ref.data then .ok ()
  else .error (.invalidParkRef park_ref)

/-- A single contact record (`src/model/qso.rs`). -/
structure Qso where
  their_call : String
  rst_sent : String
  rst_rcvd : String
  band : Band
  mode : Mode
  timestamp : DateTime
  comments : String
  their_park : Option String
deriving DecidableEq, Repr

/-- Embeds `Qso::new`: validates the callsign and the optional park reference,
then stores every argument unchanged (`src/model/qso.rs`). -/
def Qso.new (their_call rst_sent rst_rcvd : String) (band : Band) (mode : Mode)
    (timestamp : DateTime) (comments : String) (their_park : Option String) :
    Except ValidationError Qso := do
  let _ ← validate_callsign their_call
  match their_park with
  | some park => let _ ← validate_park_ref park
  | none => pure ()
  pure { their_call, rst_sent, rst_rcvd, band, mode, timestamp, comments, their_park }

/-- Fields shared by every log type (`LogHeader`, identical in
`src/model/log.rs` and `src/model/log/header.rs`). -/
structure LogHeader where
  station_callsign : String
  operator : Option String
  grid_square : String
  qsos : List Qso
  created_at : DateTime
  log_id : String
deriving DecidableEq, Repr

/-- Rust `str::to_lowercase`, embedded as a per-character map on the
underlying character list (the values it is applied to are validated
ASCII, where Unicode full lowercasing is the character map). -/
def asciiLower (s : String) : String :=
  ⟨s.data.map Char.toLower⟩

/-- The duplicate key: lower-cased callsign, band and mode
(`duplicate_key` in `src/model/log/header.rs`). -/
def duplicate_key (qso : Qso) : String × Band × Mode :=
  (asciiLower qso.their_call, qso.band, qso.mode)

/-- Embeds `LogHeader::qso_count_on_date`: number of distinct duplicate keys
among QSOs whose UTC date is `date` (the Rust code collects the keys
into a `HashSet` and takes its size). -/
def LogHeader.qso_count_on_date (h : LogHeader) (date : NaiveDate) : Nat :=
  (((h.qsos.filter fun q => q.timestamp.date = date).map duplicate_key).dedup).length

/-- Embeds `LogHeader::qso_count_today`, with `Utc::now().date_naive()` threaded
as the parameter `today`. -/
def LogHeader.qso_count_today (h : LogHeader) (today : NaiveDate) : Nat :=
  h.qso_count_on_date today

/-- Embeds `LogHeader::find_duplicates_on`: QSOs matching the candidate key,
optionally restricted to one date (`on.is_none_or(..)` is
`Option.all`). -/
def LogHeader.find_duplicates_on (h : LogHeader) (qso : Qso) (onDate : Option NaiveDate) :
    List Qso :=
  let key := duplicate_key qso
  h.qsos.filter fun q =>
    (onDate.all fun date => q.timestamp.date = date) && decide (duplicate_key q = key)

namespace Model

/-- General-purpose log (`src/model/log/general.rs`). -/
structure GeneralLog where
  header : LogHeader
deriving DecidableEq, Repr

/-- POTA activation log (`src/model/log/pota.rs`). -/
structure PotaLog where
  header : LogHeader
  park_ref : Option String
deriving DecidableEq, Repr

/-- ARRL Field Day operating class (`src/model/log/field_day.rs`). -/
inductive FdClass where
  | a | b | c | d | e | f
deriving DecidableEq, Repr

/-- Field Day power category (`src/model/log/field_day.rs`). -/
inductive FdPowerCategory where
  | qrp | low | high
deriving DecidableEq, Repr

/-- ARRL Field Day log (`src/model/log/field_day.rs`); `cls` and `sect`
embed the Rust fields `class` and `section` (Lean keywords). -/
structure FieldDayLog where
  header : LogHeader
  tx_count : Nat
  cls : FdClass
  sect : String
  power : FdPowerCategory
deriving DecidableEq, Repr

/-- Winter Field Day operating class (`src/model/log/wfd.rs`). -/
inductive WfdClass where
  | h | i | o | m
deriving DecidableEq, Repr

/-- Winter Field Day log (`src/model/log/wfd.rs`); `cls` and `sect`
embed the Rust fields `class` and `section`. -/
structure WfdLog where
  header : LogHeader
  tx_count : Nat
  cls : WfdClass
  sect : String
deriving DecidableEq, Repr

/-- The current four-variant `Log` (`src/model/log/mod.rs`). -/
inductive Log where
  | general (l : GeneralLog)
  | pota (l : PotaLog)
  | fieldDay (l : FieldDayLog)
  | winterFieldDay (l : WfdLog)
deriving DecidableEq, Repr

/-- Embeds `Log::header` (`src/model/log/mod.rs`). -/
def Log.header : Log → LogHeader
  | .general l => l.header
  | .pota l => l.header
  | .fieldDay l => l.header
  | .winterFieldDay l => l.header

/-- Embeds `POTA_ACTIVATION_THRESHOLD` (`src/model/log/mod.rs`). -/
def POTA_ACTIVATION_THRESHOLD : Nat := 10

/-- Embeds `Log::qso_count_today`, with the current UTC date as parameter. -/
def Log.qso_count_today (log : Log) (today : NaiveDate) : Nat :=
  log.header.qso_count_today today

/-- Embeds `Log::needs_for_activation` (`src/model/log/mod.rs`): saturating
subtraction from the POTA threshold for POTA logs, `0` otherwise. -/
def Log.needs_for_activation (log : Log) (today : NaiveDate) : Nat :=
  match log with
  | .pota _ => POTA_ACTIVATION_THRESHOLD - log.qso_count_today today
  | _ => 0

/-- Embeds `Log::is_activated` (`src/model/log/mod.rs`). -/
def Log.is_activated (log : Log) (today : NaiveDate) : Bool :=
  match log with
  | .pota _ => decide (POTA_ACTIVATION_THRESHOLD ≤ log.qso_count_today today)
  | _ => false

/-- Embeds `Log::find_duplicates_on` (`src/model/log/mod.rs`). -/
def Log.find_duplicates_on (log : Log) (qso : Qso) (onDate : Option NaiveDate) : List Qso :=
  log.header.find_duplicates_on qso onDate

/-- Embeds `Log::find_duplicates` (`src/model/log/mod.rs`): Field Day and Winter
Field Day search the whole log, all other variants only the current UTC
day. -/
def Log.find_duplicates (log : Log) (today : NaiveDate) (qso : Qso) : List Qso :=
  match log with
  | .fieldDay _ | .winterFieldDay _ => log.find_duplicates_on qso none
  | _ => log.find_duplicates_on qso (some today)

/-- Embeds `Log::add_qso` (append to the header QSO list). -/
def Log.add_qso (log : Log) (qso : Qso) : Log :=
  match log with
  | .general l => .general { l with header := { l.header with qsos := l.header.qsos ++ [qso] } }
  | .pota l => .pota { l with header := { l.header with qsos := l.header.qsos ++ [qso] } }
  | .fieldDay l => .fieldDay { l with header := { l.header with qsos := l.header.qsos ++ [qso] } }
  | .winterFieldDay l =>
      .winterFieldDay { l with header := { l.header with qsos := l.header.qsos ++ [qso] } }

/-- Discriminates the POTA variant. -/
def Log.isPota : Log → Prop
  | .pota _ => True
  | _ => False

instance : DecidablePred Log.isPota := fun log => by
  cases log <;> simp [Log.isPota] <;> infer_instance

end Model

namespace Storage

/-- General-purpose log of the storage era (`src/model/log.rs`). -/
structure GeneralLog where
  header : LogHeader
deriving DecidableEq, Repr

/-- POTA log of the storage era (`src/model/log.rs`). -/
structure PotaLog where
  header : LogHeader
  park_ref : Option String
deriving DecidableEq, Repr

/-- The two-variant `Log` of `src/model/log.rs`, which
`src/storage/manager.rs` is written against. -/
inductive Log where
  | general (l : GeneralLog)
  | pota (l : PotaLog)
deriving DecidableEq, Repr

/-- Embeds `Log::header` (`src/model/log.rs`). -/
def Log.header : Log → LogHeader
  | .general l => l.header
  | .pota l => l.header

/-- Storage-internal log type discriminant (`StoredLogType` in
`src/storage/manager.rs`). -/
inductive StoredLogType where
  | pota
  | general
deriving DecidableEq, Repr

/-- Serializable log metadata, the first line of each JSONL file
(`LogMetadata` in `src/storage/manager.rs`). -/
structure LogMetadata where
  station_callsign : String
  operator : Option String
  park_ref : Option String
  grid_square : String
  created_at : DateTime
  log_id : String
  log_type : StoredLogType
deriving DecidableEq, Repr

/-- Embeds `LogMetadata::from_log` (`src/storage/manager.rs`). -/
def LogMetadata.from_log (log : Log) : LogMetadata :=
  let tp := match log with
    | .pota p => (StoredLogType.pota, p.park_ref)
    | .general _ => (StoredLogType.general, none)
  { station_callsign := log.header.station_callsign
    operator := log.header.operator
    park_ref := tp.2
    grid_square := log.header.grid_square
    created_at := log.header.created_at
    log_id := log.header.log_id
    log_type := tp.1 }

/-- Embeds `LogMetadata::into_log` (`src/storage/manager.rs`). -/
def LogMetadata.into_log (m : LogMetadata) (qsos : List Qso) : Log :=
  let header : LogHeader :=
    { station_callsign := m.station_callsign
      operator := m.operator
      grid_square := m.grid_square
      qsos := qsos
      created_at := m.created_at
      log_id := m.log_id }
  match m.log_type with
  | .pota => .pota { header, park_ref := m.park_ref }
  | .general => .general { header }

/-- Storage errors (`src/storage/error.rs`); payloads of the variants not
needed by the embedded operations (OS error objects, JSON error objects,
paths) are omitted. -/
inductive StorageError where
  | io
  | json
  | emptyLogFile
  | duplicateLog (callsign : String) (date : NaiveDate)
deriving DecidableEq, Repr

/-- One parsed JSONL log file: the metadata line and the QSO lines in
order.  `serde` derive makes JSON encode/decode of well-formed records
mutually inverse, so the file content is embedded already parsed. -/
abbrev StoredFile := LogMetadata × List Qso

/-- The logs directory, as a finite map from file name to parsed file
content (insertion handled by `storeSet`). -/
abbrev Store := List (String × StoredFile)

/-- Looks a file up by name. -/
def storeGet (s : Store) (name : String) : Option StoredFile :=
  (s.find? fun e => e.1 = name).map (·.2)

/-- Creates or truncates-and-overwrites the file `name`
(`fs::File::create` semantics). -/
def storeSet (s : Store) (name : String) (content : StoredFile) : Store :=
  (name, content) :: s.filter fun e => ¬ (e.1 = name)

/-- Every `/` replaced by `_` (`log_id.replace('/', "_")`; the
replacement string is a single character, so `replace` is a character
map). -/
def replaceSlashes (s : String) : String :=
  ⟨s.data.map fun c => if c = '/' then '_' else c⟩

/-- Embeds `LogManager::log_path` (`src/storage/manager.rs`), relative to the
base directory. -/
def log_path (log_id : String) : String :=
  replaceSlashes log_id ++ ".jsonl"

/-- Embeds `LogManager::save_log`: writes the metadata line then every QSO line,
overwriting any existing file for this log id. -/
def save_log (s : Store) (log : Log) : Store :=
  storeSet s (log_path log.header.log_id) (LogMetadata.from_log log, log.header.qsos)

/-- Embeds `LogManager::append_qso`: appends one QSO line to an existing file;
fails with an I/O error when the file does not exist. -/
def append_qso (s : Store) (log_id : String) (qso : Qso) : Except StorageError Store :=
  match storeGet s (log_path log_id) with
  | none => .error .io
  | some (m, qsos) => .ok (storeSet s (log_path log_id) (m, qsos ++ [qso]))

/-- Embeds `load_log_from_path` composed with `LogManager::load_log`: reads the
file for the id, first line as metadata, remaining lines as QSOs.  A
missing file is the I/O error; the parse failures (`EmptyLogFile`,
`Json`) cannot arise on the parsed store. -/
def load_log (s : Store) (log_id : String) : Except StorageError Log :=
  match storeGet s (log_path log_id) with
  | none => .error .io
  | some (m, qsos) => .ok (m.into_log qsos)

/-- Newest-first comparison on creation timestamps used by `list_logs`
(`b.header().created_at.cmp(&a.header().created_at)`). -/
def createdGe (a b : Log) : Bool :=
  b.header.created_at.keyNat ≤ a.header.created_at.keyNat

/-- Insertion step of the newest-first sort. -/
def insertByCreated (l : Log) : List Log → List Log
  | [] => [l]
  | x :: xs => if createdGe l x then l :: x :: xs else x :: insertByCreated l xs

/-- Newest-first insertion sort on creation timestamps, embedding the
`sort_by` call of `list_logs`. -/
def sortByCreatedDesc : List Log → List Log
  | [] => []
  | x :: xs => insertByCreated x (sortByCreatedDesc xs)

/-- Embeds `LogManager::list_logs`: loads every `.jsonl` file of the directory
and sorts the logs newest first. -/
def list_logs (s : Store) : List Log :=
  sortByCreatedDesc (s.map fun e => e.2.1.into_log e.2.2)

/-- Embeds `operator_eq` (`src/storage/manager.rs`): `None` matches `None`, two
`Some` values compare case-insensitively. -/
def operator_eq (a b : Option String) : Bool :=
  match a, b with
  | none, none => true
  | some x, some y => asciiLower x = asciiLower y
  | _, _ => false

/-- Embeds `park_ref_eq` (`src/storage/manager.rs`): same absent/present rule as
`operator_eq`. -/
def park_ref_eq (a b : Option String) : Bool :=
  match a, b with
  | none, none => true
  | some x, some y => asciiLower x = asciiLower y
  | _, _ => false

/-- Embeds `log_config_eq` (`src/storage/manager.rs`): type-specific
configuration equivalence; different variants are never equal. -/
def log_config_eq (a b : Log) : Bool :=
  match a, b with
  | .pota pa, .pota pb => park_ref_eq pa.park_ref pb.park_ref
  | .general _, .general _ => true
  | _, _ => false

/-- The per-existing-log condition of the `create_log` duplicate scan
(the conjunction in `src/storage/manager.rs` lines 183-189). -/
def duplicate_cond (existing log : Log) : Bool :=
  decide (existing.header.created_at.date = log.header.created_at.date) &&
    decide (asciiLower existing.header.station_callsign
      = asciiLower log.header.station_callsign) &&
    operator_eq existing.header.operator log.header.operator &&
    decide (asciiLower existing.header.grid_square = asciiLower log.header.grid_square) &&
    log_config_eq existing log

/-- Embeds `LogManager::create_log`: scans all existing logs and rejects with
`DuplicateLog` when one matches, otherwise saves via `save_log`.  The
Rust loop returns on the first match; since the error payload does not
depend on which existing log matched, the loop is `List.any`. -/
def create_log (s : Store) (log : Log) : Except StorageError Store :=
  if (list_logs s).any (fun existing => duplicate_cond existing log) then
    .error (.duplicateLog log.header.station_callsign log.header.created_at.date)
  else
    .ok (save_log s log)

end Storage

/-- Zero-padded two-digit decimal (chrono `%m`, `%d`, `%H`, `%M`, `%S`). -/
def pad2 (n : Nat) : String :=
  if n < 10 then "0" ++ toString n else toString n

/-- Zero-padded four-digit decimal (chrono `%Y` for the years in use). -/
def pad4 (n : Nat) : String :=
  if n < 10 then "000" ++ toString n
  else if n < 100 then "00" ++ toString n
  else if n < 1000 then "0" ++ toString n
  else toString n

/-- chrono `format("%Y%m%d %H%M%S")` applied to a UTC timestamp. -/
def formatCreatedTimestamp (t : DateTime) : String :=
  pad4 t.date.year ++ pad2 t.date.month ++ pad2 t.date.day ++ " " ++
    pad2 t.time.hour ++ pad2 t.time.minute ++ pad2 t.time.second

namespace Adif

/-- The struct-era `Log` that `src/adif/writer.rs` formats (station
callsign, optional operator, optional park reference, grid square,
creation timestamp and the QSO list as direct fields). -/
structure Log where
  station_callsign : String
  operator : Option String
  park_ref : Option String
  grid_square : String
  created_at : DateTime
  qsos : List Qso
deriving DecidableEq, Repr

/-- One ADIF field tag as emitted by the `difa` tag encoder:
`<NAME:length>value` with `length` the UTF-8 byte count of the value. -/
def field_tag (name value : String) : String :=
  "<" ++ name ++ ":" ++ toString value.utf8ByteSize ++ ">" ++ value

/-- The header-termination tag as emitted by the encoder (`Tag::Eoh`
encodes with a trailing newline, per the writer tests). -/
def eohTag : String := "<eoh>\n"

/-- Embeds `format_header` (`src/adif/writer.rs`): `ADIF_VER`, `PROGRAMID`,
`PROGRAMVERSION`, `CREATED_TIMESTAMP`, each followed by a newline, then
`<eoh>` and a final newline.  The compile-time constant
`env!("CARGO_PKG_VERSION")` is the parameter `version`; the encoder
failure paths cannot arise for these tags, so the `Result` is elided. -/
def format_header (version : String) (log : Log) : String :=
  field_tag "ADIF_VER" "3.1.6" ++ "\n" ++
    field_tag "PROGRAMID" "duklog" ++ "\n" ++
    field_tag "PROGRAMVERSION" version ++ "\n" ++
    field_tag "CREATED_TIMESTAMP" (formatCreatedTimestamp log.created_at) ++ "\n" ++
    eohTag ++ "\n"

end Adif

/-- Modelled from the spec: `normalize_grid_square` is re-exported by
`src/model/mod.rs` and called by `src/tui/screens/log_create.rs`, but
its definition (a newer `validation.rs`) is absent from the available
sources.  Per spec section 4.1 it "uppercases the four mandatory
characters, lower-cases the two optional subsquare characters if
present". -/
def normalize_grid_square (s : String) : String :=
  ⟨(s.data.take 4).map Char.toUpper ++ (s.data.drop 4).map Char.toLower⟩

namespace Tui

/-- A single field of the shared form widget
(`src/tui/widgets/form.rs`). -/
structure FormField where
  label : String
  value : String
  error : Option String
  required : Bool
deriving DecidableEq, Repr

/-- Embeds `FormField::new`. -/
def FormField.new (label : String) (required : Bool) : FormField :=
  { label, value := "", error := none, required }

/-- The shared multi-field form widget (`src/tui/widgets/form.rs`). -/
structure Form where
  fields : List FormField
  focus : Nat
deriving DecidableEq, Repr

/-- Replaces the element at an index when it exists (`Vec::get_mut`
followed by an assignment). -/
def modifyAt (xs : List α) (i : Nat) (g : α → α) : List α :=
  match xs, i with
  | [], _ => []
  | x :: rest, 0 => g x :: rest
  | x :: rest, j + 1 => x :: modifyAt rest j g

/-- Modelled from the spec: `Form::set_value` ("get/set a field raw
value by index", spec section 4.11); the definition is a newer
`form.rs` absent from the available sources. -/
def Form.set_value (f : Form) (i : Nat) (v : String) : Form :=
  { f with fields := modifyAt f.fields i fun fl => { fl with value := v } }

/-- Modelled from the spec: `Form::clear_value` clears one field value
by index (spec section 4.11). -/
def Form.clear_value (f : Form) (i : Nat) : Form :=
  { f with fields := modifyAt f.fields i fun fl => { fl with value := "" } }

/-- Embeds `Form::clear_errors` (`src/tui/widgets/form.rs`). -/
def Form.clear_errors (f : Form) : Form :=
  { f with fields := f.fields.map fun fl => { fl with error := none } }

/-- Modelled from the spec: `Form::set_focus` moves focus to the given
index (spec section 4.7, focus returns to the callsign field). -/
def Form.set_focus (f : Form) (i : Nat) : Form :=
  { f with focus := i }

/-- Field indices of the QSO entry form
(`src/tui/screens/qso_entry.rs`). -/
def THEIR_CALL : Nat := 0

/-- Index of the RST Sent field. -/
def RST_SENT : Nat := 1

/-- Index of the RST Rcvd field. -/
def RST_RCVD : Nat := 2

/-- Index of the Their Park field. -/
def THEIR_PARK : Nat := 3

/-- Index of the Comments field. -/
def COMMENTS : Nat := 4

/-- The QSO Entry screen state (`QsoEntryState` in
`src/tui/screens/qso_entry.rs`). -/
structure QsoEntryState where
  form : Form
  band : Band
  mode : Mode
  recent_qsos : List Qso
  error : Option String
deriving DecidableEq, Repr

/-- Embeds `QsoEntryState::set_error`. -/
def QsoEntryState.set_error (st : QsoEntryState) (msg : String) : QsoEntryState :=
  { st with error := some msg }

/-- Embeds `QsoEntryState::add_recent_qso`: insert at the front, keep 3. -/
def QsoEntryState.add_recent_qso (st : QsoEntryState) (qso : Qso) : QsoEntryState :=
  { st with recent_qsos := (qso :: st.recent_qsos).take 3 }

/-- Embeds `QsoEntryState::clear_fast_fields`: clears callsign, park and
comments, resets both RST fields to the mode default, clears all errors
and the general error, focuses the callsign field. -/
def QsoEntryState.clear_fast_fields (st : QsoEntryState) : QsoEntryState :=
  let rst := st.mode.default_rst
  let form := ((((st.form.clear_value THEIR_CALL).set_value RST_SENT rst).set_value
      RST_RCVD rst).clear_value THEIR_PARK).clear_value COMMENTS
  { st with form := (form.clear_errors).set_focus THEIR_CALL, error := none }

/-- The screens of the application shell (`Screen` in
`src/tui/app.rs`). -/
inductive Screen where
  | logSelect | logCreate | qsoEntry | qsoList | export | help
deriving DecidableEq, Repr

/-- The application state needed by the `Action::AddQso` arm of
`App::apply_action` (`src/tui/app.rs`): the active screen, the storage
directory, the active log and the QSO Entry screen state.  The active
log is the current four-variant `Model.Log`, which is what its
`log.find_duplicates(&qso)` call resolves to in the current model; the
remaining screen states are untouched by this arm and omitted. -/
structure App where
  screen : Screen
  store : Storage.Store
  current_log : Option Model.Log
  qso_entry : QsoEntryState
deriving Repr

/-- The duplicate warning text of the `Action::AddQso` arm
(`src/tui/app.rs` line 282): the format string always ends in
"already logged today". -/
def duplicateWarningText (qso : Qso) : String :=
  "Warning: duplicate contact — " ++ qso.their_call ++ " " ++ qso.band.adif_str ++ " " ++
    qso.mode.adif_str ++ " already logged today"

/-- User-facing text of a storage error (`Display` for `StorageError`;
the embedded payloads of the I/O and JSON objects are abstracted). -/
def storageErrorText : Storage.StorageError → String
  | .io => "I/O error"
  | .json => "JSON error"
  | .emptyLogFile => "log file is empty"
  | .duplicateLog callsign _ => "a log already exists for " ++ callsign ++ " UTC"

/-- The `Action::AddQso` arm of `App::apply_action`
(`src/tui/app.rs` lines 278-300), with the current UTC date threaded as
`today`: with no active log, only an error is set; otherwise the
duplicate warning is computed from the active log duplicate rule, the
QSO is appended to storage (an append failure sets an error and leaves
everything else unchanged), then added to the in-memory log and the
recent list, the fast-entry fields are cleared, and the warning (if
any) is surfaced. -/
def App.applyAddQso (app : App) (today : NaiveDate) (qso : Qso) : App :=
  match app.current_log with
  | none => { app with qso_entry := app.qso_entry.set_error "No active log selected" }
  | some log =>
      let warning : Option String :=
        if (log.find_duplicates today qso).isEmpty then none
        else some (duplicateWarningText qso)
      match Storage.append_qso app.store log.header.log_id qso with
      | .error e =>
          { app with
            qso_entry := app.qso_entry.set_error ("Failed to save QSO: " ++ storageErrorText e) }
      | .ok store =>
          let qe := (app.qso_entry.add_recent_qso qso).clear_fast_fields
          let qe := match warning with
            | some msg => qe.set_error msg
            | none => qe
          { app with
            store := store
            current_log := some (log.add_qso qso)
            qso_entry := qe }

end Tui

/-- Type-specific configuration equivalence as the spec states it (spec
section 4.3, `create_log`): for POTA, park references equal under the
absent/present rule; General logs always; different variants never.
Spec-side definition for the refinement claim about `create_log`. -/
def SpecConfigMatch : Storage.Log → Storage.Log → Prop
  | .pota pa, .pota pb =>
      (pa.park_ref = none ∧ pb.park_ref = none) ∨
        (∃ x y, pa.park_ref = some x ∧ pb.park_ref = some y ∧ asciiLower x = asciiLower y)
  | .general _, .general _ => True
  | _, _ => False

/-- The duplicate-log match as the spec states it: same UTC calendar day
of creation, case-insensitive station callsign, operator absent/present
rule, case-insensitive grid square, and equivalent type-specific
configuration.  Spec-side definition for the refinement claim about
`create_log`. -/
def SpecDuplicateMatch (existing log : Storage.Log) : Prop :=
  existing.header.created_at.date = log.header.created_at.date ∧
    asciiLower existing.header.station_callsign = asciiLower log.header.station_callsign ∧
    ((existing.header.operator = none ∧ log.header.operator = none) ∨
      (∃ x y, existing.header.operator = some x ∧ log.header.operator = some y ∧
        asciiLower x = asciiLower y)) ∧
    asciiLower existing.header.grid_square = asciiLower log.header.grid_square ∧
    SpecConfigMatch existing log

/-- Sample date used by the concrete witnesses. -/
def d2026 : NaiveDate := ⟨2026, 6, 15⟩

/-- Sample timestamp on `d2026`. -/
def ts2026 : DateTime := ⟨d2026, ⟨12, 0, 0⟩⟩

/-- A sample QSO on `d2026` with the given callsign. -/
def sampleQso (call : String) : Qso :=
  { their_call := call, rst_sent := "59", rst_rcvd := "59", band := .m20, mode := .ssb,
    timestamp := ts2026, comments := "", their_park := none }

/-- A sample log header holding the given QSOs. -/
def sampleHeader (qsos : List Qso) : LogHeader :=
  { station_callsign := "W1AW", operator := some "W1AW", grid_square := "FN31",
    qsos := qsos, created_at := ts2026, log_id := "K-0001-20260615-120000" }

/-- A sample POTA log of the current model with two distinct contacts and
one repeat on `d2026`. -/
def samplePotaLog : Model.Log :=
  .pota { header := sampleHeader [sampleQso "KD9XYZ", sampleQso "W3ABC", sampleQso "kd9xyz"],
          park_ref := some "K-0001" }

/-- A sample Field Day log of the current model with one contact. -/
def sampleFdLog : Model.Log :=
  .fieldDay { header := { sampleHeader [sampleQso "KD9XYZ"] with log_id := "FD-W1AW-20260615" },
              tx_count := 1, cls := .b, sect := "EPA", power := .low }

/-- A sample storage-era POTA log. -/
def sampleStorageLog : Storage.Log :=
  .pota { header := sampleHeader [sampleQso "KD9XYZ"], park_ref := some "K-0001" }

/-- A sample storage-era log whose id contains a slash. -/
def sampleSlashLog : Storage.Log :=
  .pota { header := { sampleHeader [sampleQso "KD9XYZ"] with
                       log_id := "W1AW/P-20260216-120000" },
          park_ref := none }

/-- A sample ADIF-era log created at 2026-02-16T12:00:00Z. -/
def sampleAdifLog : Adif.Log :=
  { station_callsign := "W1AW", operator := some "W1AW", park_ref := some "K-0001",
    grid_square := "FN31", created_at := ⟨⟨2026, 2, 16⟩, ⟨12, 0, 0⟩⟩, qsos := [] }

/-- The initial QSO entry state (`QsoEntryState::new`). -/
def initQsoEntry : Tui.QsoEntryState :=
  { form := { fields :=
      [Tui.FormField.new "Their Callsign" true, Tui.FormField.new "RST Sent" true,
       Tui.FormField.new "RST Rcvd" true, Tui.FormField.new "Their Park" false,
       Tui.FormField.new "Comments" false], focus := 0 },
    band := .m20, mode := .ssb, recent_qsos := [], error := none }

/-- A sample application state with the given active log and store. -/
def sampleApp (log : Model.Log) (store : Storage.Store) : Tui.App :=
  { screen := .qsoEntry, store := store, current_log := some log,
    qso_entry := initQsoEntry }

/-- A store holding the backing file of the given model log (the
metadata line is the POTA-typed projection; `append_qso` never reads
it). -/
def storeFor (log : Model.Log) : Storage.Store :=
  [(Storage.log_path log.header.log_id,
    ({ station_callsign := log.header.station_callsign, operator := log.header.operator,
       park_ref := none, grid_square := log.header.grid_square,
       created_at := log.header.created_at, log_id := log.header.log_id,
       log_type := .pota }, log.header.qsos))]

theorem storeGet_storeSet_self (s : Storage.Store) (k : String) (v : Storage.StoredFile) :
    Storage.storeGet (Storage.storeSet s k v) k = some v := by
  simp [Storage.storeGet, Storage.storeSet]

theorem load_after_save (s : Storage.Store) (log : Storage.Log) :
    Storage.load_log (Storage.save_log s log) log.header.log_id = .ok log := by
  rw [Storage.load_log, Storage.save_log, storeGet_storeSet_self]
  cases log <;> rfl

/-- C1.  For every POTA log and current UTC day, `needs_for_activation`
is `max 0 (10 - n)` and `is_activated` is `n ≥ 10`, where `n` is the
number of distinct (lower-cased callsign, band, mode) triples among the
QSOs dated today; for every General, Field Day or Winter Field Day log,
`is_activated` is false and `needs_for_activation` is 0. -/
theorem pota_activation_arithmetic (today : NaiveDate) (log : Model.Log) :
    (log.isPota →
      ((log.needs_for_activation today : Int) =
          max 0 (10 - (((log.header.qsos.filter fun q =>
            q.timestamp.date = today).map duplicate_key).toFinset.card : Int)) ∧
        (log.is_activated today = true ↔
          10 ≤ ((log.header.qsos.filter fun q =>
            q.timestamp.date = today).map duplicate_key).toFinset.card))) ∧
    (¬ log.isPota → log.is_activated today = false ∧ log.needs_for_activation today = 0) := by
  have hcard : ((log.header.qsos.filter fun q =>
      q.timestamp.date = today).map duplicate_key).toFinset.card =
      log.header.qso_count_on_date today := by
    simp [LogHeader.qso_count_on_date, List.card_toFinset]
  constructor
  · intro hp
    cases log with
    | pota l =>
        rw [hcard]
        constructor
        · simp only [Model.Log.needs_for_activation, Model.Log.qso_count_today,
            LogHeader.qso_count_today, Model.POTA_ACTIVATION_THRESHOLD]
          omega
        · simp [Model.Log.is_activated, Model.Log.qso_count_today,
            LogHeader.qso_count_today, Model.POTA_ACTIVATION_THRESHOLD]
    | general l => exact absurd hp (by simp [Model.Log.isPota])
    | fieldDay l => exact absurd hp (by simp [Model.Log.isPota])
    | winterFieldDay l => exact absurd hp (by simp [Model.Log.isPota])
  · intro hnp
    cases log with
    | pota l => exact absurd (by trivial : Model.Log.isPota (.pota l)) hnp
    | general l => simp [Model.Log.is_activated, Model.Log.needs_for_activation]
    | fieldDay l => simp [Model.Log.is_activated, Model.Log.needs_for_activation]
    | winterFieldDay l => simp [Model.Log.is_activated, Model.Log.needs_for_activation]

theorem pota_activation_arithmetic_witness :
    ((samplePotaLog.needs_for_activation d2026 : Int) =
        max 0 (10 - (((samplePotaLog.header.qsos.filter fun q =>
          q.timestamp.date = d2026).map duplicate_key).toFinset.card : Int)) ∧
      (samplePotaLog.is_activated d2026 = true ↔
        10 ≤ ((samplePotaLog.header.qsos.filter fun q =>
          q.timestamp.date = d2026).map duplicate_key).toFinset.card)) ∧
    (sampleFdLog.is_activated d2026 = false ∧ sampleFdLog.needs_for_activation d2026 = 0) :=
  ⟨(pota_activation_arithmetic d2026 samplePotaLog).1
      (by simp [samplePotaLog, Model.Log.isPota]),
   (pota_activation_arithmetic d2026 sampleFdLog).2
      (by simp [sampleFdLog, Model.Log.isPota])⟩

/-- C2.  `find_duplicates` returns exactly the QSOs of the log whose
duplicate key equals the candidate key, restricted to the current UTC
day for General and POTA logs, and searched across the entire log for
Field Day and Winter Field Day logs. -/
theorem find_duplicates_scope (today : NaiveDate) (log : Model.Log) (q : Qso) :
    log.find_duplicates today q =
      log.header.qsos.filter fun r =>
        decide (duplicate_key r = duplicate_key q) &&
          match log with
          | .fieldDay _ | .winterFieldDay _ => true
          | _ => decide (r.timestamp.date = today) := by
  cases log <;>
    · simp only [Model.Log.find_duplicates, Model.Log.find_duplicates_on,
        LogHeader.find_duplicates_on, Model.Log.header]
      refine List.filter_congr fun a _ => ?_
      simp [Option.all, Bool.and_comm]

theorem operator_eq_true_iff (a b : Option String) :
    Storage.operator_eq a b = true ↔
      ((a = none ∧ b = none) ∨
        ∃ x y, a = some x ∧ b = some y ∧ asciiLower x = asciiLower y) := by
  cases a <;> cases b <;> simp [Storage.operator_eq]

theorem park_ref_eq_true_iff (a b : Option String) :
    Storage.park_ref_eq a b = true ↔
      ((a = none ∧ b = none) ∨
        ∃ x y, a = some x ∧ b = some y ∧ asciiLower x = asciiLower y) := by
  cases a <;> cases b <;> simp [Storage.park_ref_eq]

theorem log_config_eq_true_iff (a b : Storage.Log) :
    Storage.log_config_eq a b = true ↔ SpecConfigMatch a b := by
  cases a <;> cases b <;>
    simp [Storage.log_config_eq, SpecConfigMatch, park_ref_eq_true_iff]

theorem duplicate_cond_true_iff (e l : Storage.Log) :
    Storage.duplicate_cond e l = true ↔ SpecDuplicateMatch e l := by
  simp only [Storage.duplicate_cond, Bool.and_eq_true, decide_eq_true_eq,
    operator_eq_true_iff, log_config_eq_true_iff, SpecDuplicateMatch]
  tauto

/-- C3.  `create_log` rejects with a `DuplicateLog` error carrying the
new log station callsign and UTC creation date exactly when some stored
log agrees with the new one on UTC creation day, case-insensitive
station callsign, operator (absent/present rule), case-insensitive grid
square, and log-type variant with equivalent type-specific
configuration; otherwise the new log is saved via `save_log` (on a
rejection the error is returned before anything is written). -/
theorem create_log_duplicate_check (s : Storage.Store) (log : Storage.Log) :
    (Storage.create_log s log =
        .error (.duplicateLog log.header.station_callsign log.header.created_at.date) ↔
      ∃ existing ∈ Storage.list_logs s, SpecDuplicateMatch existing log) ∧
    ((¬ ∃ existing ∈ Storage.list_logs s, SpecDuplicateMatch existing log) →
      Storage.create_log s log = .ok (Storage.save_log s log)) := by
  have hany : ((Storage.list_logs s).any fun existing => Storage.duplicate_cond existing log)
        = true ↔
      ∃ existing ∈ Storage.list_logs s, SpecDuplicateMatch existing log := by
    rw [List.any_eq_true]
    exact ⟨fun ⟨x, hx, hc⟩ => ⟨x, hx, (duplicate_cond_true_iff x log).1 hc⟩,
      fun ⟨x, hx, hc⟩ => ⟨x, hx, (duplicate_cond_true_iff x log).2 hc⟩⟩
  rw [← hany]
  unfold Storage.create_log
  by_cases hif :
      ((Storage.list_logs s).any fun existing => Storage.duplicate_cond existing log) = true
  · simp [hif]
  · simp [hif]

theorem create_log_duplicate_check_witness :
    Storage.create_log [] sampleStorageLog = .ok (Storage.save_log [] sampleStorageLog) :=
  (create_log_duplicate_check [] sampleStorageLog).2
    (by simp [Storage.list_logs, Storage.sortByCreatedDesc])

/-- C4.  `save_log` followed by `load_log` of the same log id returns a
log equal to the original: same header fields (station callsign,
operator, grid square, creation timestamp, log id), same variant with
its park reference, and the same QSOs in the same order.  The theorem
covers every QSO count, in particular 0 through 20. -/
theorem save_load_round_trip (s : Storage.Store) (log : Storage.Log) :
    Storage.load_log (Storage.save_log s log) log.header.log_id = .ok log :=
  load_after_save s log

/-- C7.  For a log whose id contains a slash, `save_log` stores the file
under the id with every slash replaced by an underscore plus the
`.jsonl` extension, while the log id kept inside the file metadata is
the original string; `load_log` with the original slash-containing id
succeeds and returns a log whose id is exactly the original. -/
theorem slash_log_id_round_trip (s : Storage.Store) (log : Storage.Log)
    (hslash : '/' ∈ log.header.log_id.data) :
    Storage.storeGet (Storage.save_log s log)
        (Storage.replaceSlashes log.header.log_id ++ ".jsonl") =
      some (Storage.LogMetadata.from_log log, log.header.qsos) ∧
    (Storage.LogMetadata.from_log log).log_id = log.header.log_id ∧
    Storage.load_log (Storage.save_log s log) log.header.log_id = .ok log := by
  refine ⟨?_, ?_, load_after_save s log⟩
  · rw [Storage.save_log]
    exact storeGet_storeSet_self ..
  · cases log <;> rfl

theorem slash_log_id_round_trip_witness :
    Storage.storeGet (Storage.save_log [] sampleSlashLog)
        (Storage.replaceSlashes sampleSlashLog.header.log_id ++ ".jsonl") =
      some (Storage.LogMetadata.from_log sampleSlashLog, sampleSlashLog.header.qsos) ∧
    (Storage.LogMetadata.from_log sampleSlashLog).log_id = sampleSlashLog.header.log_id ∧
    Storage.load_log (Storage.save_log [] sampleSlashLog) sampleSlashLog.header.log_id =
      .ok sampleSlashLog :=
  slash_log_id_round_trip [] sampleSlashLog (by decide)

/-- C6.  For every log created at 2026-02-16T12:00:00Z, `format_header`
emits the newline-separated tags `ADIF_VER`, `PROGRAMID`,
`PROGRAMVERSION`, `CREATED_TIMESTAMP` in that order, containing exactly
`<ADIF_VER:5>3.1.6`, `<PROGRAMID:6>duklog` and
`<CREATED_TIMESTAMP:15>20260216 120000`, and the output ends with the
`<eoh>` tag followed by a blank line. -/
theorem format_header_exact (version : String) (log : Adif.Log)
    (hcreated : log.created_at = ⟨⟨2026, 2, 16⟩, ⟨12, 0, 0⟩⟩) :
    Adif.format_header version log =
      "<ADIF_VER:5>3.1.6" ++ "\n" ++ "<PROGRAMID:6>duklog" ++ "\n" ++
        Adif.field_tag "PROGRAMVERSION" version ++ "\n" ++
        "<CREATED_TIMESTAMP:15>20260216 120000" ++ "\n" ++ "<eoh>\n" ++ "\n" := by
  rw [Adif.format_header, hcreated]
  rfl

theorem format_header_exact_witness :
    Adif.format_header "0.1.0" sampleAdifLog =
      "<ADIF_VER:5>3.1.6" ++ "\n" ++ "<PROGRAMID:6>duklog" ++ "\n" ++
        Adif.field_tag "PROGRAMVERSION" "0.1.0" ++ "\n" ++
        "<CREATED_TIMESTAMP:15>20260216 120000" ++ "\n" ++ "<eoh>\n" ++ "\n" :=
  format_header_exact "0.1.0" sampleAdifLog rfl

/-- C8.  `normalize_grid_square` upper-cases the first four characters
of its input and lower-cases the remaining (subsquare) characters when
present, so "fn31pr" and "FN31PR" both normalize to "FN31pr" and
"fn31" normalizes to "FN31". -/
theorem normalize_grid_square_cases :
    normalize_grid_square "fn31pr" = "FN31pr" ∧
    normalize_grid_square "FN31PR" = "FN31pr" ∧
    normalize_grid_square "fn31" = "FN31" ∧
    ∀ s : String, (normalize_grid_square s).data =
      (s.data.take 4).map Char.toUpper ++ (s.data.drop 4).map Char.toLower :=
  ⟨by decide, by decide, by decide, fun s => rfl⟩

/-- C10.  `Qso::new` succeeds exactly when the callsign validates
(non-empty, ASCII alphanumerics or slash) and, when present, the park
reference validates; for every `rst_sent`, `rst_rcvd`, `comments`,
band, mode and timestamp, the returned record stores every argument
unchanged. -/
theorem qso_new_validates_call_and_park (c rs rr : String) (b : Band) (m : Mode)
    (t : DateTime) (cm : String) (p : Option String) :
    Qso.new c rs rr b m t cm p =
        .ok { their_call := c, rst_sent := rs, rst_rcvd := rr, band := b, mode := m,
              timestamp := t, comments := cm, their_park := p } ↔
      (validate_callsign c = .ok () ∧
        ∀ park, p = some park → validate_park_ref park = .ok ()) := by
  rcases hc : validate_callsign c with e | u
  · cases p <;>
      simp [Qso.new, hc, Bind.bind, Except.bind, Functor.map, Except.map, Pure.pure, Except.pure]
  · cases p with
    | none => cases u; simp [Qso.new, hc, Bind.bind, Except.bind, Pure.pure, Except.pure]
    | some park =>
        cases u
        rcases hp : validate_park_ref park with e | u
        · simp [Qso.new, hc, hp, Bind.bind, Except.bind, Functor.map, Except.map, Pure.pure, Except.pure]
        · cases u; simp [Qso.new, hc, hp, Bind.bind, Except.bind, Functor.map, Except.map, Pure.pure, Except.pure]

theorem add_qso_log_id (log : Model.Log) (qso : Qso) :
    (log.add_qso qso).header.log_id = log.header.log_id := by
  cases log <;> rfl

/-- C5 (amended).  When `AddQso(q)` is applied with an active log whose
duplicate rule matches `q` and the storage append succeeds, the contact
is still appended to storage and to the in-memory log, and the QSO
Entry screen shows the non-fatal message "Warning: duplicate contact —
... already logged today" for every log type (the Field Day and Winter
Field Day message keeps the "today" qualifier); the message is cleared
by the next successful non-duplicate submit. -/
theorem addqso_duplicate_warning (app : Tui.App) (today : NaiveDate) (qso : Qso)
    (log : Model.Log) (f : Storage.StoredFile)
    (hlog : app.current_log = some log)
    (hdup : log.find_duplicates today qso ≠ [])
    (hfile : Storage.storeGet app.store (Storage.log_path log.header.log_id) = some f) :
    Storage.storeGet (app.applyAddQso today qso).store
        (Storage.log_path log.header.log_id) = some (f.1, f.2 ++ [qso]) ∧
    (app.applyAddQso today qso).current_log = some (log.add_qso qso) ∧
    (app.applyAddQso today qso).qso_entry.error = some (Tui.duplicateWarningText qso) ∧
    (∀ today2 qso2 f2,
      (log.add_qso qso).find_duplicates today2 qso2 = [] →
      Storage.storeGet (app.applyAddQso today qso).store
          (Storage.log_path (log.add_qso qso).header.log_id) = some f2 →
      ((app.applyAddQso today qso).applyAddQso today2 qso2).qso_entry.error = none) := by
  obtain ⟨m, qs⟩ := f
  have hne : (log.find_duplicates today qso).isEmpty = false := by
    cases hfd : log.find_duplicates today qso with
    | nil => exact absurd hfd hdup
    | cons a l => rfl
  have happly : app.applyAddQso today qso =
      { app with
        store := Storage.storeSet app.store (Storage.log_path log.header.log_id)
          (m, qs ++ [qso]),
        current_log := some (log.add_qso qso),
        qso_entry := ((app.qso_entry.add_recent_qso qso).clear_fast_fields).set_error
          (Tui.duplicateWarningText qso) } := by
    simp only [Tui.App.applyAddQso, hlog, hne, Storage.append_qso, hfile,
      Bool.false_eq_true, if_false]
  refine ⟨?_, ?_, ?_, ?_⟩
  · rw [happly]
    exact storeGet_storeSet_self ..
  · rw [happly]
  · rw [happly]
    rfl
  · intro today2 qso2 f2 hnd hf2
    obtain ⟨m2, qs2⟩ := f2
    have hne2 : ((log.add_qso qso).find_duplicates today2 qso2).isEmpty = true := by
      rw [hnd]
      rfl
    rw [happly] at hf2
    rw [happly]
    simp only [Tui.App.applyAddQso, hne2, Storage.append_qso, hf2, if_true]
    rfl

theorem addqso_duplicate_warning_witness :
    Storage.storeGet ((sampleApp samplePotaLog (storeFor samplePotaLog)).applyAddQso d2026
          (sampleQso "KD9XYZ")).store
        (Storage.log_path samplePotaLog.header.log_id) =
      some (({ station_callsign := "W1AW", operator := some "W1AW", park_ref := none,
               grid_square := "FN31", created_at := ts2026,
               log_id := "K-0001-20260615-120000", log_type := .pota } :
              Storage.LogMetadata),
            samplePotaLog.header.qsos ++ [sampleQso "KD9XYZ"]) ∧
    ((sampleApp samplePotaLog (storeFor samplePotaLog)).applyAddQso d2026
        (sampleQso "KD9XYZ")).current_log =
      some (samplePotaLog.add_qso (sampleQso "KD9XYZ")) ∧
    ((sampleApp samplePotaLog (storeFor samplePotaLog)).applyAddQso d2026
        (sampleQso "KD9XYZ")).qso_entry.error =
      some (Tui.duplicateWarningText (sampleQso "KD9XYZ")) :=
  ⟨(addqso_duplicate_warning (sampleApp samplePotaLog (storeFor samplePotaLog)) d2026
      (sampleQso "KD9XYZ") samplePotaLog
      ({ station_callsign := "W1AW", operator := some "W1AW", park_ref := none,
         grid_square := "FN31", created_at := ts2026,
         log_id := "K-0001-20260615-120000", log_type := .pota },
        samplePotaLog.header.qsos) rfl (by decide) (by decide)).1,
   (addqso_duplicate_warning (sampleApp samplePotaLog (storeFor samplePotaLog)) d2026
      (sampleQso "KD9XYZ") samplePotaLog
      ({ station_callsign := "W1AW", operator := some "W1AW", park_ref := none,
         grid_square := "FN31", created_at := ts2026,
         log_id := "K-0001-20260615-120000", log_type := .pota },
        samplePotaLog.header.qsos) rfl (by decide) (by decide)).2.1,
   (addqso_duplicate_warning (sampleApp samplePotaLog (storeFor samplePotaLog)) d2026
      (sampleQso "KD9XYZ") samplePotaLog
      ({ station_callsign := "W1AW", operator := some "W1AW", park_ref := none,
         grid_square := "FN31", created_at := ts2026,
         log_id := "K-0001-20260615-120000", log_type := .pota },
        samplePotaLog.header.qsos) rfl (by decide) (by decide)).2.2.1⟩

/-- C5 counterexample: applying `AddQso` with an active Field Day log
whose whole-log duplicate rule matches still produces the message with
the "today" qualifier, not the claimed message without it. -/
theorem addqso_fd_warning_counterexample :
    ((sampleApp sampleFdLog (storeFor sampleFdLog)).applyAddQso d2026
        (sampleQso "KD9XYZ")).qso_entry.error =
      some "Warning: duplicate contact — KD9XYZ 20M SSB already logged today" ∧
    ((sampleApp sampleFdLog (storeFor sampleFdLog)).applyAddQso d2026
        (sampleQso "KD9XYZ")).qso_entry.error ≠
      some "Warning: duplicate contact — KD9XYZ 20M SSB already logged" := by
  constructor <;> decide

/-- C9.  When `AddQso(q)` with an active log fails at the storage append
step, the application state is unchanged except that the QSO Entry
screen error message is set: the screen, the store, the in-memory
active log, the entry-form fields, the recent-contacts list and the
band/mode selections are all the same as before the action. -/
theorem addqso_append_failure (app : Tui.App) (today : NaiveDate) (qso : Qso)
    (log : Model.Log)
    (hlog : app.current_log = some log)
    (hmiss : Storage.storeGet app.store (Storage.log_path log.header.log_id) = none) :
    (app.applyAddQso today qso).screen = app.screen ∧
    (app.applyAddQso today qso).store = app.store ∧
    (app.applyAddQso today qso).current_log = app.current_log ∧
    (app.applyAddQso today qso).qso_entry.form = app.qso_entry.form ∧
    (app.applyAddQso today qso).qso_entry.recent_qsos = app.qso_entry.recent_qsos ∧
    (app.applyAddQso today qso).qso_entry.band = app.qso_entry.band ∧
    (app.applyAddQso today qso).qso_entry.mode = app.qso_entry.mode ∧
    ((app.applyAddQso today qso).qso_entry.error).isSome = true := by
  have happly : app.applyAddQso today qso =
      { app with qso_entry := app.qso_entry.set_error ("Failed to save QSO: " ++ Tui.storageErrorText .io) } := by
    simp only [Tui.App.applyAddQso, hlog, Storage.append_qso, hmiss]
  rw [happly]
  simp [Tui.QsoEntryState.set_error]

theorem addqso_append_failure_witness :
    ((sampleApp samplePotaLog []).applyAddQso d2026 (sampleQso "KD9XYZ")).screen =
        (sampleApp samplePotaLog []).screen ∧
    ((sampleApp samplePotaLog []).applyAddQso d2026 (sampleQso "KD9XYZ")).store =
        (sampleApp samplePotaLog []).store ∧
    ((sampleApp samplePotaLog []).applyAddQso d2026 (sampleQso "KD9XYZ")).current_log =
        (sampleApp samplePotaLog []).current_log ∧
    ((sampleApp samplePotaLog []).applyAddQso d2026 (sampleQso "KD9XYZ")).qso_entry.form =
        (sampleApp samplePotaLog []).qso_entry.form ∧
    ((sampleApp samplePotaLog []).applyAddQso d2026
        (sampleQso "KD9XYZ")).qso_entry.recent_qsos =
        (sampleApp samplePotaLog []).qso_entry.recent_qsos ∧
    ((sampleApp samplePotaLog []).applyAddQso d2026 (sampleQso "KD9XYZ")).qso_entry.band =
        (sampleApp samplePotaLog []).qso_entry.band ∧
    ((sampleApp samplePotaLog []).applyAddQso d2026 (sampleQso "KD9XYZ")).qso_entry.mode =
        (sampleApp samplePotaLog []).qso_entry.mode ∧
    (((sampleApp samplePotaLog []).applyAddQso d2026
        (sampleQso "KD9XYZ")).qso_entry.error).isSome = true :=
  addqso_append_failure (sampleApp samplePotaLog []) d2026 (sampleQso "KD9XYZ")
    samplePotaLog rfl (by decide)
